import Mathlib

/-!
Shallow embedding of the ADB session handshake logic (`Adb` class:
`connect`, `parseBanner`, `dispose`, and the device-metadata accessors)
from `src/packages/demo/src/router.tsx`.

Strings are modelled as Lean `String`; JavaScript's
`String.prototype.split(sep)` (for a non-empty string separator) is
modelled by `jsSplit` below, a fuel-based structural recursion that the
kernel can evaluate.  Packet payloads appear here already decoded to
strings, since the handshake only ever uses `backend.decodeUtf8(payload)`.
-/

/-- `jsIsPrefixOf sep s` is true when `sep` is a prefix of `s`. -/
def jsIsPrefixOf : List Char → List Char → Bool
  | [], _ => true
  | _ :: _, [] => false
  | a :: as, b :: bs => a == b && jsIsPrefixOf as bs

/-- Worker for `jsSplit`: scans `s`, cutting at each leftmost,
non-overlapping occurrence of `sep`; `acc` holds the chars of the current
piece in reverse.  `fuel` bounds the recursion; `s.length` steps always
suffice because every recursive call consumes at least one character of
`s` (the separators used in this development are non-empty). -/
def jsSplitAux (sep : List Char) : Nat → List Char → List Char → List (List Char)
  | 0, s, acc => [acc.reverse ++ s]
  | fuel + 1, s, acc =>
    match s with
    | [] => [acc.reverse]
    | c :: rest =>
      if jsIsPrefixOf sep s then
        acc.reverse :: jsSplitAux sep fuel (s.drop sep.length) []
      else
        jsSplitAux sep fuel rest (c :: acc)

/-- JavaScript `s.split(sep)` for a non-empty string separator `sep`:
splits at every non-overlapping occurrence, keeps empty pieces, e.g.
`jsSplit ";" "a;;b;" = ["a", "", "b", ""]` and `jsSplit ";" "" = [""]`. -/
def jsSplit (sep : String) (s : String) : List String :=
  (jsSplitAux sep.toList (s.toList.length + 1) s.toList []).map String.mk

/-- `enum AdbCommand` from the packet module (spec §3 data model):
`{CONNECT, AUTH, OPEN, OKAY, WRITE, CLOSE}`. -/
inductive AdbCommand where
  | auth
  | close
  | connect
  | okay
  | open_
  | write
deriving DecidableEq, Repr

/-- A wire packet as seen by the handshake handler.  `arg0`/`arg1` are
uint32 values (no arithmetic in the handshake can overflow, so plain `Nat`
is used); `payload` is the payload already decoded to a string via the
backend's `decodeUtf8` (the only way the handshake reads it). -/
structure AdbPacket where
  command : AdbCommand
  arg0 : Nat
  arg1 : Nat
  payload : String
deriving DecidableEq, Repr

/- `enum AdbPropKey` from `router.tsx`. -/
namespace AdbPropKey

def Product : String := "ro.product.name"

def Model : String := "ro.product.model"

def Device : String := "ro.product.device"

def Features : String := "features"

end AdbPropKey

/-- Modelled from the spec: the `AdbFeatures` enum lives in `features.ts`,
which is not part of the sources here; the spec's fixed catalogue names
the capability token `stat-v2`, which in the catalogue's underscore
convention (all the literal tokens beside it in `connect` use `_`) is the
string `stat_v2`. -/
def AdbFeatures.StatV2 : String := "stat_v2"

/-- The mutable session-parameter bag of the `AdbPacketDispatcher`, as the
`Adb` session sees it: `maxPayloadSize`, `calculateChecksum`,
`appendNullToServiceString` are assigned by `connect`; `started` records
that `start()` ran and `disposed` that `dispose()` ran. -/
structure AdbPacketDispatcher where
  maxPayloadSize : Nat
  calculateChecksum : Bool
  appendNullToServiceString : Bool
  started : Bool
  disposed : Bool
deriving DecidableEq, Repr

/-- The `Adb` session state: the `_connected` flag and the device-metadata
fields backing the `connected`/`product`/`model`/`device`/`features`
accessors, plus the owned dispatcher and a flag for `backend.dispose()`.
`Option` models TypeScript `undefined`. -/
structure Adb where
  connected : Bool
  product : Option String
  model : Option String
  device : Option String
  features : Option (List String)
  packetDispatcher : AdbPacketDispatcher
  backendDisposed : Bool
deriving DecidableEq, Repr

/-- The session state right after `new Adb(backend)`: the class field
initializers set `_connected = false` and leave `_product`, `_model`,
`_device`, `_features` undefined; the freshly constructed dispatcher `d`
is left abstract (its parameters are assigned by `connect` before use). -/
def mkAdb (d : AdbPacketDispatcher) : Adb :=
  { connected := false
    product := none
    model := none
    device := none
    features := none
    packetDispatcher := d
    backendDisposed := false }

/-- `const version = 0x01000001` in `connect`. -/
def version : Nat := 0x01000001

/-- `const versionNoChecksum = 0x01000001` in `connect`. -/
def versionNoChecksum : Nat := 0x01000001

/-- `const maxPayloadSize = 0x100000` in `connect`: the locally supported
maximum payload size advertised in the outgoing CONNECT packet. -/
def maxPayloadSize : Nat := 0x100000

/-- The hard-coded feature catalogue joined into the CONNECT service
string by `connect`. -/
def featureList : List String :=
  [ "shell_v2"
  , "cmd"
  , AdbFeatures.StatV2
  , "ls_v2"
  , "fixed_push_mkdir"
  , "apex"
  , "abb"
  , "fixed_push_symlink_timestamp"
  , "abb_exec"
  , "remount_shell"
  , "track_app"
  , "sendrecv_v2"
  , "sendrecv_v2_brotli"
  , "sendrecv_v2_lz4"
  , "sendrecv_v2_zstd"
  , "sendrecv_v2_dry_run_send" ]

/-- `const features = [...].join(',')` in `connect`. -/
def features : String := String.intercalate "," featureList

/-- The CONNECT packet sent by `connect`:
`sendPacket(AdbCommand.Connect, version, maxPayloadSize,
\x7bhost::features=${features};\0\x7d)`. -/
def connectPacket : AdbPacket :=
  { command := .connect
    arg0 := version
    arg1 := maxPayloadSize
    payload := "host::features=" ++ features ++ ";\x00" }

/-- The opening of `connect` (lines 164–168): assigns the dispatcher's
initial parameters and starts its inbound pipeline. -/
def connectInit (adb : Adb) : Adb :=
  { adb with
    packetDispatcher :=
      { adb.packetDispatcher with
        maxPayloadSize := 0x1000
        calculateChecksum := true
        appendNullToServiceString := true
        started := true } }

/-- One `prop` iteration of the loop in `parseBanner`: skip empty entries,
split on `=`, skip unless exactly a `key=value` pair, then dispatch on the
key; unrecognized keys fall through unchanged. -/
def parseProp (adb : Adb) (prop : String) : Adb :=
  if prop = "" then adb
  else
    match jsSplit "=" prop with
    | [key, value] =>
      if key = AdbPropKey.Product then { adb with product := some value }
      else if key = AdbPropKey.Model then { adb with model := some value }
      else if key = AdbPropKey.Device then { adb with device := some value }
      else if key = AdbPropKey.Features then
        { adb with features := some (jsSplit "," value) }
      else adb
    | _ => adb

/-- `Adb.parseBanner`: resets `_features` to `[]`, splits the banner on
`::`, and when there is more than one piece folds `parseProp` over the
`;`-separated entries of the second piece (`pieces[1]`). -/
def parseBanner (adb : Adb) (banner : String) : Adb :=
  let adb1 := { adb with features := some ([] : List String) }
  match jsSplit "::" banner with
  | _ :: props :: _ => (jsSplit ";" props).foldl parseProp adb1
  | _ => adb1

/-- The second piece's `;`-separated entries of a banner, i.e. the `prop`
values the `parseBanner` loop visits (empty when `pieces.length ≤ 1`). -/
def bannerProps (banner : String) : List String :=
  match jsSplit "::" banner with
  | _ :: props :: _ => jsSplit ";" props
  | _ => []

/-- Whether one banner entry is a well-formed `key=value` pair whose key
is `key` — exactly the condition under which `parseProp` assigns the
corresponding field. -/
def propSets (key : String) (prop : String) : Bool :=
  match jsSplit "=" prop with
  | [k, _] => !(prop == "") && (k == key)
  | _ => false

/-- What the handshake's `onPacket` handler does with one inbound packet:
resolve the handshake, send the Authentication Handler's response packet,
ignore the packet, or reject the handshake with an error message. -/
inductive HandshakeOutcome where
  | resolved
  | sentAuthResponse (response : AdbPacket)
  | ignored
  | rejected (message : String)
deriving DecidableEq, Repr

/-- Result of one step of the handshake packet handler. -/
structure HandlerResult where
  adb : Adb
  outcome : HandshakeOutcome
deriving DecidableEq, Repr

/-- The `onPacket` handler installed by `connect` (lines 196–228), as a
function of the session state and the inbound packet.  `authNext` stands
for the `AdbAuthenticationHandler.next` of the configured handler (its
module is outside these sources), mapping the received AUTH packet to the
response packet that is then sent back. -/
def handleHandshakePacket (authNext : AdbPacket → AdbPacket)
    (adb : Adb) (packet : AdbPacket) : HandlerResult :=
  match packet.command with
  | .connect =>
    let d := adb.packetDispatcher
    let d := { d with maxPayloadSize := min maxPayloadSize packet.arg1 }
    let d :=
      if min version packet.arg0 ≥ versionNoChecksum then
        { d with calculateChecksum := false, appendNullToServiceString := false }
      else d
    let adb1 := { adb with packetDispatcher := d }
    { adb := parseBanner adb1 packet.payload, outcome := .resolved }
  | .auth => { adb := adb, outcome := .sentAuthResponse (authNext packet) }
  | .close => { adb := adb, outcome := .ignored }
  | _ =>
    { adb := adb
      outcome := .rejected
        "Device not in correct state. Reconnect your device and try again" }

/-- The `DisposableList` holding the handshake's two temporary
subscriptions: the `onPacket` listener and the `onError` listener. -/
structure DisposableList where
  packetListenerActive : Bool
  errorListenerActive : Bool
deriving DecidableEq, Repr

/-- `DisposableList.dispose`: releases every held subscription. -/
def DisposableList.dispose (_ : DisposableList) : DisposableList :=
  { packetListenerActive := false, errorListenerActive := false }

/-- The tail of `connect` (lines 245–250):
`try { await resolver.promise; this._connected = true; }
 finally { disposableList.dispose(); }` — on success the `_connected`
flag is set, on failure the state is untouched, and the disposable list
is disposed either way. -/
def connectFinish (adb : Adb) (l : DisposableList)
    (outcome : Except String Unit) : Adb × DisposableList :=
  match outcome with
  | .ok _ => ({ adb with connected := true }, l.dispose)
  | .error _ => (adb, l.dispose)

/-- `Adb.dispose`: `this.packetDispatcher.dispose(); await
this.backend.dispose();` — no `Adb` field other than the dispatcher's
disposed flag is written; in particular `_connected` is not. -/
def Adb.dispose (adb : Adb) : Adb :=
  { adb with
    packetDispatcher := { adb.packetDispatcher with disposed := true }
    backendDisposed := true }

/-- An arbitrary dispatcher value used to build concrete states in
witnesses and counterexamples. -/
def sampleDispatcher : AdbPacketDispatcher :=
  { maxPayloadSize := 0
    calculateChecksum := true
    appendNullToServiceString := true
    started := false
    disposed := false }

/-- `parseProp` only ever writes the four metadata fields: `connected`,
`packetDispatcher` and `backendDisposed` are untouched in every branch. -/
lemma parseProp_frame (adb : Adb) (prop : String) :
    (parseProp adb prop).connected = adb.connected ∧
    (parseProp adb prop).packetDispatcher = adb.packetDispatcher ∧
    (parseProp adb prop).backendDisposed = adb.backendDisposed := by
  unfold parseProp
  split
  · exact ⟨rfl, rfl, rfl⟩
  · split
    · split_ifs <;> exact ⟨rfl, rfl, rfl⟩
    · exact ⟨rfl, rfl, rfl⟩

/-- Once `features` is defined, `parseProp` keeps it defined. -/
lemma parseProp_features_isSome (adb : Adb) (prop : String)
    (h : adb.features.isSome = true) :
    (parseProp adb prop).features.isSome = true := by
  unfold parseProp
  split
  · exact h
  · split
    · split_ifs <;> first | exact h | rfl
    · exact h

lemma foldl_parseProp_connected (l : List String) (adb : Adb) :
    (l.foldl parseProp adb).connected = adb.connected := by
  induction l generalizing adb with
  | nil => rfl
  | cons p ps ih => rw [List.foldl_cons, ih, (parseProp_frame adb p).1]

lemma foldl_parseProp_packetDispatcher (l : List String) (adb : Adb) :
    (l.foldl parseProp adb).packetDispatcher = adb.packetDispatcher := by
  induction l generalizing adb with
  | nil => rfl
  | cons p ps ih => rw [List.foldl_cons, ih, (parseProp_frame adb p).2.1]

lemma foldl_parseProp_features_isSome (l : List String) (adb : Adb)
    (h : adb.features.isSome = true) :
    (l.foldl parseProp adb).features.isSome = true := by
  induction l generalizing adb with
  | nil => exact h
  | cons p ps ih => exact ih _ (parseProp_features_isSome adb p h)

/-- `parseBanner` is the fold of `parseProp` over `bannerProps`, started
from the state whose `features` was reset to `[]`. -/
lemma parseBanner_eq (adb : Adb) (banner : String) :
    parseBanner adb banner =
      (bannerProps banner).foldl parseProp
        { adb with features := some ([] : List String) } := by
  unfold parseBanner bannerProps
  cases h : jsSplit "::" banner with
  | nil => rfl
  | cons a t =>
    cases t with
    | nil => rfl
    | cons b r => rfl

lemma parseBanner_connected (adb : Adb) (banner : String) :
    (parseBanner adb banner).connected = adb.connected := by
  rw [parseBanner_eq, foldl_parseProp_connected]

lemma parseBanner_packetDispatcher (adb : Adb) (banner : String) :
    (parseBanner adb banner).packetDispatcher = adb.packetDispatcher := by
  rw [parseBanner_eq, foldl_parseProp_packetDispatcher]

/-- When `prop` is not a well-formed `ro.product.name=...` pair,
`parseProp` leaves `product` unchanged. -/
lemma parseProp_product_skip (adb : Adb) (prop : String)
    (h : propSets AdbPropKey.Product prop = false) :
    (parseProp adb prop).product = adb.product := by
  unfold parseProp
  unfold propSets at h
  split
  · rfl
  next hp =>
    split
    next k v heq =>
      rw [heq] at h
      have hk : ¬ k = AdbPropKey.Product := by
        intro hkk
        rw [hkk] at h
        simp [hp] at h
      rw [if_neg hk]
      split_ifs <;> rfl
    next => rfl

/-- When `prop` is not a well-formed `ro.product.model=...` pair,
`parseProp` leaves `model` unchanged. -/
lemma parseProp_model_skip (adb : Adb) (prop : String)
    (h : propSets AdbPropKey.Model prop = false) :
    (parseProp adb prop).model = adb.model := by
  unfold parseProp
  unfold propSets at h
  split
  · rfl
  next hp =>
    split
    next k v heq =>
      rw [heq] at h
      have hk : ¬ k = AdbPropKey.Model := by
        intro hkk
        rw [hkk] at h
        simp [hp] at h
      split_ifs <;> rfl
    next => rfl

/-- When `prop` is not a well-formed `ro.product.device=...` pair,
`parseProp` leaves `device` unchanged. -/
lemma parseProp_device_skip (adb : Adb) (prop : String)
    (h : propSets AdbPropKey.Device prop = false) :
    (parseProp adb prop).device = adb.device := by
  unfold parseProp
  unfold propSets at h
  split
  · rfl
  next hp =>
    split
    next k v heq =>
      rw [heq] at h
      have hk : ¬ k = AdbPropKey.Device := by
        intro hkk
        rw [hkk] at h
        simp [hp] at h
      split_ifs <;> rfl
    next => rfl

lemma foldl_parseProp_product (l : List String) (adb : Adb)
    (h : ∀ prop ∈ l, propSets AdbPropKey.Product prop = false) :
    (l.foldl parseProp adb).product = adb.product := by
  induction l generalizing adb with
  | nil => rfl
  | cons p ps ih =>
    rw [List.foldl_cons, ih _ fun q hq => h q (List.mem_cons_of_mem _ hq)]
    exact parseProp_product_skip adb p (h p (List.mem_cons_self _ _))

lemma foldl_parseProp_model (l : List String) (adb : Adb)
    (h : ∀ prop ∈ l, propSets AdbPropKey.Model prop = false) :
    (l.foldl parseProp adb).model = adb.model := by
  induction l generalizing adb with
  | nil => rfl
  | cons p ps ih =>
    rw [List.foldl_cons, ih _ fun q hq => h q (List.mem_cons_of_mem _ hq)]
    exact parseProp_model_skip adb p (h p (List.mem_cons_self _ _))

lemma foldl_parseProp_device (l : List String) (adb : Adb)
    (h : ∀ prop ∈ l, propSets AdbPropKey.Device prop = false) :
    (l.foldl parseProp adb).device = adb.device := by
  induction l generalizing adb with
  | nil => rfl
  | cons p ps ih =>
    rw [List.foldl_cons, ih _ fun q hq => h q (List.mem_cons_of_mem _ hq)]
    exact parseProp_device_skip adb p (h p (List.mem_cons_self _ _))

lemma parseBanner_features_isSome (adb : Adb) (banner : String) :
    (parseBanner adb banner).features.isSome = true := by
  rw [parseBanner_eq]
  exact foldl_parseProp_features_isSome _ _ rfl

/-- C1: during the `connect()` handshake, for every inbound packet
received before the handshake resolves: a CONNECT reply resolves the
handshake successfully; an AUTH packet is passed to the Authentication
Handler and the response packet it produces is sent back; a CLOSE packet
is ignored (no state change, not terminal); and a packet with any other
command rejects the handshake with the fatal "device not in correct
state" error. -/
theorem handshake_packet_dispatch (authNext : AdbPacket → AdbPacket)
    (adb : Adb) (p : AdbPacket) :
    (p.command = AdbCommand.connect →
      (handleHandshakePacket authNext adb p).outcome = HandshakeOutcome.resolved) ∧
    (p.command = AdbCommand.auth →
      (handleHandshakePacket authNext adb p).outcome =
        HandshakeOutcome.sentAuthResponse (authNext p)) ∧
    (p.command = AdbCommand.close →
      (handleHandshakePacket authNext adb p).outcome = HandshakeOutcome.ignored ∧
      (handleHandshakePacket authNext adb p).adb = adb) ∧
    (p.command ≠ AdbCommand.connect → p.command ≠ AdbCommand.auth →
      p.command ≠ AdbCommand.close →
      (handleHandshakePacket authNext adb p).outcome = HandshakeOutcome.rejected
        "Device not in correct state. Reconnect your device and try again") := by
  cases hc : p.command <;> simp [handleHandshakePacket, hc]

/-- Witness for `handshake_packet_dispatch` at four concrete packets, one
per command class. -/
theorem handshake_packet_dispatch_witness :
    (handleHandshakePacket id (mkAdb sampleDispatcher)
      { command := .connect, arg0 := 1, arg1 := 2, payload := "x" }).outcome =
        HandshakeOutcome.resolved ∧
    (handleHandshakePacket id (mkAdb sampleDispatcher)
      { command := .auth, arg0 := 0, arg1 := 0, payload := "" }).outcome =
        HandshakeOutcome.sentAuthResponse
          (id { command := .auth, arg0 := 0, arg1 := 0, payload := "" }) ∧
    (handleHandshakePacket id (mkAdb sampleDispatcher)
      { command := .close, arg0 := 0, arg1 := 0, payload := "" }).outcome =
        HandshakeOutcome.ignored ∧
    (handleHandshakePacket id (mkAdb sampleDispatcher)
      { command := .write, arg0 := 0, arg1 := 0, payload := "" }).outcome =
        HandshakeOutcome.rejected
          "Device not in correct state. Reconnect your device and try again" := by
  refine ⟨(handshake_packet_dispatch id _ _).1 rfl,
    (handshake_packet_dispatch id _ _).2.1 rfl,
    ((handshake_packet_dispatch id _ _).2.2.1 rfl).1,
    (handshake_packet_dispatch id _ _).2.2.2 (by decide) (by decide) (by decide)⟩

/-- C2: after the peer's CONNECT reply is processed, the negotiated
`maxPayloadSize` equals the minimum of the local maximum (`0x100000`) and
the peer's advertised maximum taken from the reply's `arg1`. -/
theorem connect_reply_min_payload (authNext : AdbPacket → AdbPacket)
    (adb : Adb) (p : AdbPacket) (h : p.command = AdbCommand.connect) :
    (handleHandshakePacket authNext adb p).adb.packetDispatcher.maxPayloadSize =
      min maxPayloadSize p.arg1 := by
  simp only [handleHandshakePacket, h]
  rw [parseBanner_packetDispatcher]
  split_ifs <;> rfl

/-- Witness for `connect_reply_min_payload`: a peer advertising
`arg1 = 0x2000` yields a negotiated size of `0x2000 = min 0x100000
0x2000`. -/
theorem connect_reply_min_payload_witness :
    (handleHandshakePacket id (mkAdb sampleDispatcher)
      { command := .connect, arg0 := 0, arg1 := 0x2000,
        payload := "" }).adb.packetDispatcher.maxPayloadSize =
      min maxPayloadSize 0x2000 ∧
    min maxPayloadSize 0x2000 = 0x2000 := by
  exact ⟨connect_reply_min_payload id (mkAdb sampleDispatcher) _ rfl, by decide⟩

/-- C3: for every peer protocol version in the CONNECT reply's `arg0`: if
`min localVersion peerVersion ≥ versionNoChecksum` then both checksum
calculation and service-string null-termination are disabled after the
reply is processed; otherwise both remain enabled at their initial
(enabled) values. -/
theorem connect_reply_checksum_negotiation (authNext : AdbPacket → AdbPacket)
    (adb : Adb) (p : AdbPacket) (hc : p.command = AdbCommand.connect)
    (h1 : adb.packetDispatcher.calculateChecksum = true)
    (h2 : adb.packetDispatcher.appendNullToServiceString = true) :
    (min version p.arg0 ≥ versionNoChecksum →
      (handleHandshakePacket authNext adb p).adb.packetDispatcher.calculateChecksum
          = false ∧
      (handleHandshakePacket authNext adb p).adb.packetDispatcher.appendNullToServiceString
          = false) ∧
    (min version p.arg0 < versionNoChecksum →
      (handleHandshakePacket authNext adb p).adb.packetDispatcher.calculateChecksum
          = true ∧
      (handleHandshakePacket authNext adb p).adb.packetDispatcher.appendNullToServiceString
          = true) := by
  simp only [handleHandshakePacket, hc]
  constructor
  · intro hge
    rw [parseBanner_packetDispatcher]
    rw [if_pos hge]
    exact ⟨rfl, rfl⟩
  · intro hlt
    rw [parseBanner_packetDispatcher]
    rw [if_neg (not_le.mpr hlt)]
    exact ⟨h1, h2⟩

/-- Witness for `connect_reply_checksum_negotiation` at two concrete
replies from a checksum-enabled state: peer version `0x01000001`
(≥ `versionNoChecksum`) disables both flags, peer version `0`
(min < `versionNoChecksum`) leaves both enabled. -/
theorem connect_reply_checksum_negotiation_witness :
    ((handleHandshakePacket id (connectInit (mkAdb sampleDispatcher))
        { command := .connect, arg0 := 0x01000001, arg1 := 0,
          payload := "" }).adb.packetDispatcher.calculateChecksum = false ∧
      (handleHandshakePacket id (connectInit (mkAdb sampleDispatcher))
        { command := .connect, arg0 := 0x01000001, arg1 := 0,
          payload := "" }).adb.packetDispatcher.appendNullToServiceString = false) ∧
    ((handleHandshakePacket id (connectInit (mkAdb sampleDispatcher))
        { command := .connect, arg0 := 0, arg1 := 0,
          payload := "" }).adb.packetDispatcher.calculateChecksum = true ∧
      (handleHandshakePacket id (connectInit (mkAdb sampleDispatcher))
        { command := .connect, arg0 := 0, arg1 := 0,
          payload := "" }).adb.packetDispatcher.appendNullToServiceString = true) := by
  exact ⟨(connect_reply_checksum_negotiation id (connectInit (mkAdb sampleDispatcher))
      _ rfl rfl rfl).1 (by decide),
    (connect_reply_checksum_negotiation id (connectInit (mkAdb sampleDispatcher))
      _ rfl rfl rfl).2 (by decide)⟩

/-- C4: parsing the banner
`"device::ro.product.name=widget;ro.product.model=X1;features=shell_v2,cmd;"`
sets `product` to `"widget"`, `model` to `"X1"` and `features` to
`["shell_v2", "cmd"]`; and for every state and every entry that does not
split into exactly a `key=value` pair — such as `"badentry"`, which has
no `=` — the entry is skipped, leaving the state unchanged (the parse is
total, so it cannot fail). -/
theorem parseBanner_example_and_skip :
    ((parseBanner (mkAdb sampleDispatcher)
        "device::ro.product.name=widget;ro.product.model=X1;features=shell_v2,cmd;").product
          = some "widget" ∧
      (parseBanner (mkAdb sampleDispatcher)
        "device::ro.product.name=widget;ro.product.model=X1;features=shell_v2,cmd;").model
          = some "X1" ∧
      (parseBanner (mkAdb sampleDispatcher)
        "device::ro.product.name=widget;ro.product.model=X1;features=shell_v2,cmd;").features
          = some ["shell_v2", "cmd"]) ∧
    (∀ (adb : Adb) (prop : String), (jsSplit "=" prop).length ≠ 2 →
      parseProp adb prop = adb) ∧
    (parseBanner (mkAdb sampleDispatcher) "device::badentry;ro.product.model=X1;" =
      { mkAdb sampleDispatcher with model := some "X1", features := some [] }) := by
  refine ⟨by decide, ?_, by decide⟩
  intro adb prop h
  unfold parseProp
  split
  · rfl
  · split
    next k v heq => exact absurd (by rw [heq]; rfl) h
    next => rfl

/-- Witness for `parseBanner_example_and_skip`: the entry `"badentry"`
has no `=`, splits into one piece, and is skipped from an arbitrary
concrete state. -/
theorem parseBanner_example_and_skip_witness :
    (jsSplit "=" "badentry").length ≠ 2 ∧
    parseProp (mkAdb sampleDispatcher) "badentry" = mkAdb sampleDispatcher := by
  exact ⟨by decide,
    parseBanner_example_and_skip.2.1 (mkAdb sampleDispatcher) "badentry" (by decide)⟩

/-- C5 counterexample: the dispatcher's initial `maxPayloadSize` set at
the start of `connect()` is `0x1000`, which is not equal to the locally
supported maximum `0x100000` advertised in the outgoing CONNECT packet's
`arg1`. -/
theorem connectInit_payload_not_local_max :
    (connectInit (mkAdb sampleDispatcher)).packetDispatcher.maxPayloadSize = 0x1000 ∧
    connectPacket.arg1 = 0x100000 ∧
    (connectInit (mkAdb sampleDispatcher)).packetDispatcher.maxPayloadSize ≠
      connectPacket.arg1 := by
  exact ⟨rfl, rfl, by decide⟩

/-- C5 (amended): when `connect()` begins, before any peer reply is
processed, the dispatcher parameters are set to: checksum calculation
enabled, service-string null-termination enabled, and `maxPayloadSize`
equal to `0x1000` — a conservative value no greater than (but not equal
to) the locally supported maximum `0x100000` advertised in the outgoing
CONNECT packet — and the dispatcher's inbound pipeline is started. -/
theorem connectInit_params (adb : Adb) :
    (connectInit adb).packetDispatcher.calculateChecksum = true ∧
    (connectInit adb).packetDispatcher.appendNullToServiceString = true ∧
    (connectInit adb).packetDispatcher.maxPayloadSize = 0x1000 ∧
    (connectInit adb).packetDispatcher.maxPayloadSize ≤ connectPacket.arg1 ∧
    (connectInit adb).packetDispatcher.started = true := by
  exact ⟨rfl, rfl, rfl, (by decide : (0x1000 : Nat) ≤ connectPacket.arg1), rfl⟩

/-- C6: a handshake failure leaves `connected` exactly as it was — and it
is `false` from construction through every non-resolving handler step —
while the temporary subscriptions (the packet listener and the error
listener) are disposed on the failure path and on the success path
alike. -/
theorem connect_failure_and_cleanup (d : AdbPacketDispatcher) (adb : Adb)
    (l : DisposableList) (e : String) (authNext : AdbPacket → AdbPacket)
    (p : AdbPacket) :
    ((mkAdb d).connected = false) ∧
    ((connectInit adb).connected = adb.connected) ∧
    ((handleHandshakePacket authNext adb p).adb.connected = adb.connected) ∧
    ((connectFinish adb l (Except.error e)).1.connected = adb.connected) ∧
    ((connectFinish adb l (Except.error e)).2.packetListenerActive = false ∧
      (connectFinish adb l (Except.error e)).2.errorListenerActive = false) ∧
    ((connectFinish adb l (Except.ok ())).2.packetListenerActive = false ∧
      (connectFinish adb l (Except.ok ())).2.errorListenerActive = false) ∧
    ((connectFinish adb l (Except.ok ())).1.connected = true) := by
  refine ⟨rfl, rfl, ?_, rfl, ⟨rfl, rfl⟩, ⟨rfl, rfl⟩, rfl⟩
  cases hc : p.command <;>
    simp [handleHandshakePacket, hc, parseBanner_connected]

set_option maxRecDepth 8192 in
/-- C7: the CONNECT packet sent by `connect()` carries the local protocol
version `0x01000001` in `arg0`, the locally supported max payload size
`0x100000` in `arg1`, and the service string
`host::features=<csv>;\0` where `<csv>` is the comma-joined hard-coded
feature catalogue. -/
theorem connectPacket_contents :
    connectPacket.command = AdbCommand.connect ∧
    connectPacket.arg0 = version ∧
    connectPacket.arg0 = 0x01000001 ∧
    connectPacket.arg1 = maxPayloadSize ∧
    connectPacket.arg1 = 0x100000 ∧
    connectPacket.payload =
      "host::features=" ++ String.intercalate "," featureList ++ ";\x00" ∧
    connectPacket.payload =
      "host::features=shell_v2,cmd,stat_v2,ls_v2,fixed_push_mkdir,apex,abb,fixed_push_symlink_timestamp,abb_exec,remount_shell,track_app,sendrecv_v2,sendrecv_v2_brotli,sendrecv_v2_lz4,sendrecv_v2_zstd,sendrecv_v2_dry_run_send;\x00" := by
  exact ⟨rfl, rfl, rfl, rfl, rfl, rfl, by decide⟩

/-- C8: the metadata fields backing the `product`, `model`, `device` and
`features` accessors are all absent (`none`) in a freshly constructed
session, and no modelled operation other than processing a CONNECT reply
— not `connectInit`, not a non-CONNECT handshake step, not
`connectFinish`, not `dispose` — ever writes them, so they are absent
until the handshake completes and immutable thereafter. -/
theorem metadata_absent_until_connect (d : AdbPacketDispatcher) (adb : Adb)
    (authNext : AdbPacket → AdbPacket) (p : AdbPacket) (l : DisposableList)
    (o : Except String Unit) :
    ((mkAdb d).product = none ∧ (mkAdb d).model = none ∧
      (mkAdb d).device = none ∧ (mkAdb d).features = none ∧
      (mkAdb d).connected = false) ∧
    ((connectInit adb).product = adb.product ∧
      (connectInit adb).model = adb.model ∧
      (connectInit adb).device = adb.device ∧
      (connectInit adb).features = adb.features) ∧
    (p.command ≠ AdbCommand.connect →
      ((handleHandshakePacket authNext adb p).adb.product = adb.product ∧
        (handleHandshakePacket authNext adb p).adb.model = adb.model ∧
        (handleHandshakePacket authNext adb p).adb.device = adb.device ∧
        (handleHandshakePacket authNext adb p).adb.features = adb.features)) ∧
    ((connectFinish adb l o).1.product = adb.product ∧
      (connectFinish adb l o).1.model = adb.model ∧
      (connectFinish adb l o).1.device = adb.device ∧
      (connectFinish adb l o).1.features = adb.features) ∧
    (adb.dispose.product = adb.product ∧ adb.dispose.model = adb.model ∧
      adb.dispose.device = adb.device ∧ adb.dispose.features = adb.features) := by
  refine ⟨⟨rfl, rfl, rfl, rfl, rfl⟩, ⟨rfl, rfl, rfl, rfl⟩, ?_, ?_, ⟨rfl, rfl, rfl, rfl⟩⟩
  · intro hn
    cases hc : p.command <;>
      simp_all [handleHandshakePacket]
  · cases o with
    | ok u => exact ⟨rfl, rfl, rfl, rfl⟩
    | error e => exact ⟨rfl, rfl, rfl, rfl⟩

/-- Witness for `metadata_absent_until_connect` at a concrete non-CONNECT
packet (an AUTH packet), a concrete state and concrete finish outcome. -/
theorem metadata_absent_until_connect_witness :
    (mkAdb sampleDispatcher).product = none ∧
    (handleHandshakePacket id (mkAdb sampleDispatcher)
      { command := .auth, arg0 := 0, arg1 := 0, payload := "" }).adb.features =
      (mkAdb sampleDispatcher).features := by
  exact ⟨(metadata_absent_until_connect sampleDispatcher (mkAdb sampleDispatcher)
      id { command := .auth, arg0 := 0, arg1 := 0, payload := "" }
      { packetListenerActive := true, errorListenerActive := true }
      (Except.ok ())).1.1,
    ((metadata_absent_until_connect sampleDispatcher (mkAdb sampleDispatcher)
      id { command := .auth, arg0 := 0, arg1 := 0, payload := "" }
      { packetListenerActive := true, errorListenerActive := true }
      (Except.ok ())).2.2.1 (by decide)).2.2.2⟩

/-- C9: for every banner and every starting state, `parseBanner`
unconditionally resets `features` to the empty list before parsing — so
afterwards `features` is always a defined list, and when the banner has
no `::` section the result is exactly the input state with
`features = some []` — while `product`, `model` and `device` are
overwritten only when a well-formed entry with their key appears among
the banner's entries and otherwise keep their previous values. -/
theorem parseBanner_frame (adb : Adb) (banner : String) :
    ((parseBanner adb banner).features.isSome = true) ∧
    ((jsSplit "::" banner).length ≤ 1 →
      parseBanner adb banner = { adb with features := some [] }) ∧
    ((∀ prop ∈ bannerProps banner, propSets AdbPropKey.Product prop = false) →
      (parseBanner adb banner).product = adb.product) ∧
    ((∀ prop ∈ bannerProps banner, propSets AdbPropKey.Model prop = false) →
      (parseBanner adb banner).model = adb.model) ∧
    ((∀ prop ∈ bannerProps banner, propSets AdbPropKey.Device prop = false) →
      (parseBanner adb banner).device = adb.device) := by
  refine ⟨parseBanner_features_isSome adb banner, ?_, ?_, ?_, ?_⟩
  · intro hlen
    unfold parseBanner
    cases hsp : jsSplit "::" banner with
    | nil => rfl
    | cons a t =>
      cases t with
      | nil => rfl
      | cons b r => rw [hsp] at hlen; simp at hlen
  · intro h
    rw [parseBanner_eq, foldl_parseProp_product _ _ h]
  · intro h
    rw [parseBanner_eq, foldl_parseProp_model _ _ h]
  · intro h
    rw [parseBanner_eq, foldl_parseProp_device _ _ h]

/-- Witness for `parseBanner_frame`: a banner with no `::` section keeps
previous `product`/`model`/`device` values and yields a defined, empty
feature list. -/
theorem parseBanner_frame_witness :
    (parseBanner (mkAdb sampleDispatcher) "banner-without-separator").features.isSome
      = true ∧
    parseBanner (mkAdb sampleDispatcher) "banner-without-separator" =
      { mkAdb sampleDispatcher with features := some [] } ∧
    (parseBanner (mkAdb sampleDispatcher) "device::a=b;").product =
      (mkAdb sampleDispatcher).product := by
  refine ⟨(parseBanner_frame (mkAdb sampleDispatcher) "banner-without-separator").1,
    (parseBanner_frame (mkAdb sampleDispatcher) "banner-without-separator").2.1
      (by decide),
    (parseBanner_frame (mkAdb sampleDispatcher) "device::a=b;").2.2.1 ?_⟩
  decide

/-- C10: `dispose()` does not modify the `_connected` flag: for every
session state its value after `dispose` equals its value before, so a
session that completed its handshake still reports `connected = true`
after disposal. -/
theorem dispose_preserves_connected (adb : Adb) (l : DisposableList) :
    adb.dispose.connected = adb.connected ∧
    ((connectFinish adb l (Except.ok ())).1.dispose.connected = true) := by
  exact ⟨rfl, rfl⟩
